import Mathlib

/-!
Shallow embedding of the nlnetworkstats polling pipeline
(backend/app/services/monitor.py, backend/app/services/mikrotik.py,
backend/app/models.py) and proofs about the frozen specification claims.

Python dicts are modelled as association lists with in-place update
(`upsert`), preserving Python 3.7+ insertion-order iteration semantics.
`datetime` values are modelled as natural-number timestamps (seconds).
`None` is modelled as `Option.none`; Python `==` on optional strings is
structural equality (so `None == None` is `True`, faithfully modelled by
`decide (none = none) = true`).
-/

namespace NetStats

/-- Association-list update with Python-dict semantics: replace in place if
the key exists, append otherwise. -/
def upsert {α : Type} : List (String × α) → String → α → List (String × α)
  | [], k, v => [(k, v)]
  | (k', v') :: rest, k, v =>
    if k' = k then (k, v) :: rest else (k', v') :: upsert rest k v

/-- Association-list lookup (Python `d.get(k)` / `k in d`). -/
def lookupA {α : Type} : List (String × α) → String → Option α
  | [], _ => none
  | (k', v') :: rest, k => if k' = k then some v' else lookupA rest k

/-- Python `str.lower()` (ASCII-relevant part). -/
def strLower (s : String) : String := ⟨s.data.map Char.toLower⟩

/-- Python `str.strip()`: drop whitespace from both ends. -/
def strTrim (s : String) : String :=
  ⟨((s.data.dropWhile Char.isWhitespace).reverse.dropWhile Char.isWhitespace).reverse⟩

/-- `charsStartsWith pat l` is true when `pat` is an initial segment of `l`. -/
def charsStartsWith : List Char → List Char → Bool
  | [], _ => true
  | _ :: _, [] => false
  | p :: ps, c :: cs => p = c && charsStartsWith ps cs

/-- `charsContains pat l`: `pat` occurs as a contiguous substring of `l`
(Python `pat in l`). -/
def charsContains (pat : List Char) : List Char → Bool
  | [] => charsStartsWith pat []
  | c :: cs => charsStartsWith pat (c :: cs) || charsContains pat cs

/-- Python `pat in s` for strings. -/
def strContains (s pat : String) : Bool := charsContains pat.data s.data

/-- `normalize_speed` from monitor.py: normalize a link-speed string for
comparison.  Falsy input (`None` or `""`) yields `none`; otherwise ordered
substring tests on the lower-cased, stripped input. -/
def normalize_speed : Option String → Option String
  | none => none
  | some s =>
    if s = "" then none
    else
      let sp := strTrim (strLower s)
      if strContains sp "10g" then some "10Gbps"
      else if strContains sp "2.5g" then some "2.5Gbps"
      else if strContains sp "5g" then some "5Gbps"
      else if strContains sp "1g" || strContains sp "gbps" || strContains sp "gbit" then
        some "1Gbps"
      else if strContains sp "100m" || strContains sp "100-" then some "100Mbps"
      else if strContains sp "10m" || strContains sp "10-" then some "10Mbps"
      else some sp

/-- `DeviceConfig` from models.py (inventory entry). -/
structure DeviceConfig where
  name : String
  ip : String
  expected_speed : String
  mac : Option String := none
  switch : Option String := none
  port : Option String := none
deriving DecidableEq, Repr

/-- `DeviceStatus` from models.py; `datetime` fields are Nat timestamps. -/
structure DeviceStatus where
  name : String
  ip : String
  mac : Option String := none
  expected_speed : String
  actual_speed : Option String := none
  switch_name : Option String := none
  port_name : Option String := none
  speed_match : Bool := false
  online : Bool := false
  last_seen : Option Nat := none
deriving DecidableEq, Repr

/-- `ArpEntry` from mikrotik.py. -/
structure ArpEntry where
  ip : String
  mac : String
  iface : String := ""
deriving DecidableEq, Repr

/-- `BridgeHost` from mikrotik.py. -/
structure BridgeHost where
  mac : String
  iface : String
  bridge : String := ""
deriving DecidableEq, Repr

/-- `InterfaceInfo` from mikrotik.py. -/
structure InterfaceInfo where
  name : String
  running : Bool := true
  speed : Option String := none
  full_duplex : Bool := true
  rx_bytes : Nat := 0
  tx_bytes : Nat := 0
  rx_dropped : Nat := 0
  tx_dropped : Nat := 0
  rx_errors : Nat := 0
  tx_errors : Nat := 0
  rx_fcs_errors : Nat := 0
  tx_fcs_errors : Nat := 0
  rx_pause : Nat := 0
  tx_pause : Nat := 0
  rx_fragment : Nat := 0
deriving DecidableEq, Repr

/-- `PortErrors` from models.py (fields used by the event detector). -/
structure PortErrors where
  switch_name : String
  port_name : String
  device_name : Option String := none
  link_status : String := "unknown"
  speed : Option String := none
  full_duplex : Bool := true
  rx_bytes : Nat := 0
  tx_bytes : Nat := 0
  rx_dropped : Nat := 0
  tx_dropped : Nat := 0
  rx_errors : Nat := 0
  tx_errors : Nat := 0
  rx_fcs_errors : Nat := 0
  tx_fcs_errors : Nat := 0
  rx_pause : Nat := 0
  tx_pause : Nat := 0
  rx_fragment : Nat := 0
  has_issues : Bool := false
deriving DecidableEq, Repr

/-- `SwitchConfig` from models.py (credential fields omitted: they only
feed the RouterOS session, which is abstracted by `Option SwitchData`). -/
structure SwitchConfig where
  name : String
  host : String
deriving DecidableEq, Repr

/-- `SwitchStatus` from models.py. -/
structure SwitchStatus where
  name : String
  host : String
  connected : Bool
  error : Option String := none
  last_check : Option Nat := none
deriving DecidableEq, Repr

/-- The dictionary returned by `MikroTikClient.get_all_data`. -/
structure SwitchData where
  identity : Option String := none
  arp : List ArpEntry := []
  dhcp_leases : List (String × String) := []
  bridge_hosts : List BridgeHost := []
  interfaces : List InterfaceInfo := []
  uplink_ports : List (String × String) := []
deriving DecidableEq, Repr

/-- Python truthiness of an optional string (`if x:`): not None and not "". -/
def optTruthy : Option String → Bool
  | none => false
  | some s => s ≠ ""

/-- Python `str.upper()` (ASCII-relevant part). -/
def strUpper (s : String) : String := ⟨s.data.map Char.toUpper⟩

/-- The global IP↔MAC index: `(all_mac_to_ip, all_ip_to_mac)`. -/
abbrev IpMacIndex := List (String × String) × List (String × String)

/-- Pre-population of the index with configured MACs, from `collect_data`
(for static IP devices not in ARP/DHCP). -/
def seedConfiguredMacs (devices : List DeviceConfig) : IpMacIndex :=
  devices.foldl
    (fun idx d =>
      if optTruthy d.mac then
        let m := strUpper (d.mac.getD "")
        (upsert idx.1 m d.ip, upsert idx.2 d.ip m)
      else idx)
    ([], [])

/-- One ARP entry overlay from `collect_data`: overrides configured MACs
and earlier entries unconditionally. -/
def addArpEntry (idx : IpMacIndex) (e : ArpEntry) : IpMacIndex :=
  (upsert idx.1 e.mac e.ip, upsert idx.2 e.ip e.mac)

/-- One DHCP lease overlay from `collect_data`: each side of the index is
written only when its key is absent. -/
def addDhcpLease (idx : IpMacIndex) (ip mac : String) : IpMacIndex :=
  let m1 := if (lookupA idx.1 mac).isSome then idx.1 else upsert idx.1 mac ip
  let m2 := if (lookupA idx.2 ip).isSome then idx.2 else upsert idx.2 ip mac
  (m1, m2)

/-- The per-switch part of Pass B in `collect_data`: ARP entries first,
then DHCP leases. -/
def overlaySwitch (idx : IpMacIndex) (sd : SwitchData) : IpMacIndex :=
  let idx := sd.arp.foldl addArpEntry idx
  sd.dhcp_leases.foldl (fun i p => addDhcpLease i p.1 p.2) idx

/-- Pass B of `collect_data`: configured MACs, then per reachable switch
ARP and DHCP overlays in order. -/
def buildIndex (devices : List DeviceConfig) (sds : List SwitchData) : IpMacIndex :=
  sds.foldl overlaySwitch (seedConfiguredMacs devices)

/-- One inventory device of Pass A in `collect_data`: register the config
under the resolved IP and seed a fresh status, carrying `last_seen` over
from the previous snapshot at the same resolved IP. -/
def seedStep (resolve : String → String) (prev : List (String × DeviceStatus))
    (acc : List (String × DeviceConfig) × List (String × DeviceStatus))
    (d : DeviceConfig) :
    List (String × DeviceConfig) × List (String × DeviceStatus) :=
  let rip := resolve d.ip
  (upsert acc.1 rip d,
   upsert acc.2 rip
     { name := d.name
       ip := d.ip
       expected_speed := d.expected_speed
       last_seen := (lookupA prev rip).bind (fun st => st.last_seen) })

/-- Pass A of `collect_data`: seed fresh statuses from the inventory and
build `device_config`.  `resolve` abstracts `resolve_hostname`. -/
def seedStatuses (devices : List DeviceConfig) (resolve : String → String)
    (prev : List (String × DeviceStatus)) :
    List (String × DeviceConfig) × List (String × DeviceStatus) :=
  devices.foldl (seedStep resolve prev) ([], [])

/-- Speed adoption from `_process_switch_data`: set `actual_speed` to the
normalized port rate and `speed_match` to Python `==` of the two
normalized optional strings (note `None == None` is `True`). -/
def setSpeed (sp : Option String) (st : DeviceStatus) : DeviceStatus :=
  let actual := normalize_speed sp
  { st with
      actual_speed := actual
      speed_match := decide (actual = normalize_speed (some st.expected_speed)) }

/-- Auto-discovery branch of `_process_switch_data`: adopt the bridge port
only if it is not an uplink and no port was attributed yet. -/
def autoUpd (identity : String) (uplinks : List (String × String))
    (portSpeed : List (String × Option String)) (port : String)
    (st : DeviceStatus) : DeviceStatus :=
  if (lookupA uplinks port).isNone && st.port_name.isNone then
    let st := { st with port_name := some port, switch_name := some identity }
    match lookupA portSpeed port with
    | some sp => setSpeed sp st
    | none => st
  else st

/-- The unconditional per-hit update of `_process_switch_data`:
`status.mac`, `status.online`, `status.last_seen = now`. -/
def baseUpd (mac : String) (now : Nat) (st : DeviceStatus) : DeviceStatus :=
  { st with mac := some mac, online := true, last_seen := some now }

/-- The Python truthiness test `device_cfg and device_cfg.switch and
device_cfg.port` selecting the pinned-attribution branch. -/
def pinnedOf : Option DeviceConfig → Bool
  | none => false
  | some c => optTruthy c.switch && optTruthy c.port

/-- Pinned-attribution branch of `_process_switch_data`: adopt the
configured port when this is the expected switch, reading the speed from
the configured port when it is in `port_info`. -/
def pinApply (c : DeviceConfig) (identity : String)
    (portSpeed : List (String × Option String)) (st : DeviceStatus) : DeviceStatus :=
  if c.switch = some identity then
    let st := { st with port_name := c.port, switch_name := some identity }
    match c.port with
    | some pt =>
      (match lookupA portSpeed pt with
       | some sp => setSpeed sp st
       | none => st)
    | none => st
  else st

/-- Per-bridge-host device update from `_process_switch_data` (lines
259-283): base fields, then pinned attribution or auto-discovery. -/
def updStatus (cfg : Option DeviceConfig) (identity : String)
    (uplinks : List (String × String)) (portSpeed : List (String × Option String))
    (mac port : String) (now : Nat) (st0 : DeviceStatus) : DeviceStatus :=
  let st := baseUpd mac now st0
  match cfg with
  | some c =>
    if optTruthy c.switch && optTruthy c.port then pinApply c identity portSpeed st
    else autoUpd identity uplinks portSpeed port st
  | none => autoUpd identity uplinks portSpeed port st

/-- One `(mac, port)` iteration of the bridge-host loop in
`_process_switch_data`. -/
def stepMac (cfgMap : List (String × DeviceConfig)) (identity : String)
    (uplinks : List (String × String)) (portSpeed : List (String × Option String))
    (idx : List (String × String)) (now : Nat)
    (sts : List (String × DeviceStatus)) (e : String × String) :
    List (String × DeviceStatus) :=
  match lookupA idx e.1 with
  | none => sts
  | some ip =>
    match lookupA sts ip with
    | none => sts
    | some st =>
      upsert sts ip (updStatus (lookupA cfgMap ip) identity uplinks portSpeed e.1 e.2 now st)

/-- `mac_to_port` built from bridge hosts in `_process_switch_data`. -/
def macToPortOf (sd : SwitchData) : List (String × String) :=
  sd.bridge_hosts.foldl (fun m h => upsert m h.mac h.iface) []

/-- The speed column of `port_info` built from interfaces in
`_process_switch_data`. -/
def portSpeedOf (sd : SwitchData) : List (String × Option String) :=
  sd.interfaces.foldl (fun m i => upsert m i.name i.speed) []

/-- `data.get("identity", switch_config.name)`. -/
def identityOf (cfgName : String) (sd : SwitchData) : String :=
  sd.identity.getD cfgName

/-- Device-status part of `_process_switch_data` for a single switch. -/
def process_switch_data (cfgMap : List (String × DeviceConfig)) (cfgName : String)
    (sd : SwitchData) (idx : List (String × String)) (now : Nat)
    (sts : List (String × DeviceStatus)) : List (String × DeviceStatus) :=
  (macToPortOf sd).foldl
    (stepMac cfgMap (identityOf cfgName sd) sd.uplink_ports (portSpeedOf sd) idx now) sts

/-- The second pass of `collect_data`: process the data of every connected
switch in list order. -/
def processAllSwitches (cfgMap : List (String × DeviceConfig))
    (idx : List (String × String)) (now : Nat)
    (connected : List (SwitchConfig × SwitchData))
    (sts : List (String × DeviceStatus)) : List (String × DeviceStatus) :=
  connected.foldl (fun s p => process_switch_data cfgMap p.1.name p.2 idx now s) sts

/-- One ping result of `_verify_online_with_ping`: an unreachable IP
present in the statuses map is forced offline. -/
def verifyStep (s : List (String × DeviceStatus)) (p : String × Bool) :
    List (String × DeviceStatus) :=
  if p.2 then s
  else
    match lookupA s p.1 with
    | none => s
    | some st => upsert s p.1 { st with online := false }

/-- The marking loop of `_verify_online_with_ping`. -/
def verifyCore (prs : List (String × Bool)) (sts : List (String × DeviceStatus)) :
    List (String × DeviceStatus) :=
  prs.foldl verifyStep sts

/-- `_verify_online_with_ping`: skip when there are no switches, no online
devices, or the router connection fails; otherwise ping every online
resolved IP and mark the unreachable ones offline. -/
def verify_online_with_ping (switchesNonempty connectOk : Bool)
    (ping : String → Bool) (sts : List (String × DeviceStatus)) :
    List (String × DeviceStatus) :=
  if !switchesNonempty then sts
  else
    let onlineIps := (sts.filter (fun p => p.2.online)).map Prod.fst
    if onlineIps.isEmpty then sts
    else if connectOk then verifyCore (onlineIps.map (fun ip => (ip, ping ip))) sts
    else sts

/-- The device-status pipeline of `collect_data`: Pass A (seed), Pass B
(global index), Pass C (per-switch attribution in list order, connected
switches only), then ping verification.  `sds` pairs each configured
switch with `some` data when its connection succeeded, `none` otherwise. -/
def collectStatuses (devices : List DeviceConfig) (resolve : String → String)
    (sds : List (SwitchConfig × Option SwitchData)) (pingConnectOk : Bool)
    (ping : String → Bool) (now : Nat)
    (prev : List (String × DeviceStatus)) : List (String × DeviceStatus) :=
  let seeded := seedStatuses devices resolve prev
  let idx := buildIndex devices (sds.filterMap Prod.snd)
  let connected := sds.filterMap (fun p => p.2.map (fun d => (p.1, d)))
  let sts1 := processAllSwitches seeded.1 idx.1 now connected seeded.2
  verify_online_with_ping (!sds.isEmpty) pingConnectOk ping sts1

/-- Switch-status bookkeeping of `collect_data` + `_process_switch_data`:
a connected switch records `connected=true` with its learned identity; a
switch whose connection failed is skipped entirely. -/
def switchStatusStep (now : Nat) (m : List (String × SwitchStatus))
    (p : SwitchConfig × Option SwitchData) : List (String × SwitchStatus) :=
  match p.2 with
  | none => m
  | some d =>
    upsert m p.1.name
      { name := identityOf p.1.name d
        host := p.1.host
        connected := true
        error := none
        last_check := some now }

/-- Full per-cycle switch-status update over the configured switch list. -/
def updateSwitchStatuses (prev : List (String × SwitchStatus))
    (sds : List (SwitchConfig × Option SwitchData)) (now : Nat) :
    List (String × SwitchStatus) :=
  sds.foldl (switchStatusStep now) prev

/-- `cur_online` from `_check_offline_changes`: display addresses of all
online devices in the snapshot. -/
def current_online (sts : List (String × DeviceStatus)) : List String :=
  ((sts.map Prod.snd).filter (fun d => d.online)).map (fun d => d.ip)

/-- `device_offline` emissions from `_check_offline_changes`: for each ip
that went offline, an event is sent only when the ip is found in the
snapshot map (which is keyed by resolved IP). -/
def offline_events (sts : List (String × DeviceStatus)) (prevOnline : List String) :
    List String :=
  prevOnline.filter
    (fun ip => !(current_online sts).contains ip && (lookupA sts ip).isSome)

/-- `device_online` emissions from `_check_offline_changes`: for each ip
that came online, an event is sent only when the ip is found in the
snapshot map and the previous online set was non-empty. -/
def online_events (sts : List (String × DeviceStatus)) (prevOnline : List String) :
    List String :=
  (current_online sts).filter
    (fun ip => !prevOnline.contains ip && ((lookupA sts ip).isSome && !prevOnline.isEmpty))

/-- Python `int(p)` on a digit string (no sign handling needed beyond `-`);
`none` models the `ValueError` raised on non-numeric parts. -/
def parseNatChars (cs : List Char) : Option Nat :=
  if cs.isEmpty then none
  else if cs.all Char.isDigit then
    some (cs.foldl (fun n c => n * 10 + (c.toNat - 48)) 0)
  else none

/-- Python `int(s)` restricted to optionally negated digit strings. -/
def parseIntChars : List Char → Option Int
  | '-' :: rest => (parseNatChars rest).map (fun n => -(n : Int))
  | cs => (parseNatChars cs).map (fun n => (n : Int))

/-- Python `s.split(sep)` for a one-character separator. -/
def splitChar (sep : Char) : List Char → List (List Char)
  | [] => [[]]
  | c :: cs =>
    let r := splitChar sep cs
    if c = sep then [] :: r
    else
      match r with
      | [] => [[c]]
      | g :: gs => (c :: g) :: gs

/-- The sort key used by `get_matched_devices`: the tuple of the integer
values of the dot-separated parts of the display address; `none` models
the `ValueError` when some part is not an integer literal. -/
def ipSortKey (s : String) : Option (List Int) :=
  let parts := (splitChar '.' s.data).map parseIntChars
  if parts.all Option.isSome then some (parts.map (fun o => o.getD 0)) else none

/-- Lexicographic order on Python int tuples. -/
def keyLe : List Int → List Int → Bool
  | [], _ => true
  | _ :: _, [] => false
  | a :: as, b :: bs => if a < b then true else if b < a then false else keyLe as bs

/-- The filter of `get_matched_devices`: `online ∧ speed_match`. -/
def matchedOf (sts : List (String × DeviceStatus)) : List DeviceStatus :=
  (sts.map Prod.snd).filter (fun d => d.online && d.speed_match)

/-- Comparison used to sort matched devices by dotted-quad numeric order. -/
def devKeyLe (a b : DeviceStatus) : Prop :=
  keyLe ((ipSortKey a.ip).getD []) ((ipSortKey b.ip).getD []) = true

instance : DecidableRel devKeyLe := fun a b => by
  unfold devKeyLe; infer_instance

/-- `get_matched_devices` from monitor.py: filter `online ∧ speed_match`
and sort by the dotted-quad integer tuple of the display address; `none`
models the `ValueError` raised when a display address is not a dotted
quad of integer literals. -/
def get_matched_devices (sts : List (String × DeviceStatus)) :
    Option (List DeviceStatus) :=
  let devs := matchedOf sts
  if devs.all (fun d => (ipSortKey d.ip).isSome) then
    some (List.insertionSort devKeyLe devs)
  else none

/-- Proof-side view of the bridge-host fold: the per-ip effect of a list
of `(mac, port)` entries on the optional status stored at `ip`. -/
def applyHits (cfg : Option DeviceConfig) (identity : String)
    (uplinks : List (String × String)) (portSpeed : List (String × Option String))
    (idx : List (String × String)) (now : Nat) (ip : String)
    (l : List (String × String)) (o : Option DeviceStatus) : Option DeviceStatus :=
  l.foldl
    (fun o e =>
      if lookupA idx e.1 = some ip then
        o.map (updStatus cfg identity uplinks portSpeed e.1 e.2 now)
      else o)
    o

/-- The entries of a bridge-host map that hit the device stored at `ip`
through the global index. -/
def hitsOf (idx : List (String × String)) (ip : String)
    (l : List (String × String)) : List (String × String) :=
  l.filter (fun e => decide (lookupA idx e.1 = some ip))

/-- Every value stored in an association list satisfies `P`. -/
def AllVals (P : DeviceStatus → Prop) (m : List (String × DeviceStatus)) : Prop :=
  ∀ ip st, lookupA m ip = some st → P st

/-- The speed-coherence invariant of a device status: a positive
`speed_match` means the recorded actual speed is the normalization of the
expected speed. -/
def SpeedCoherent (st : DeviceStatus) : Prop :=
  st.speed_match = true → st.actual_speed = normalize_speed (some st.expected_speed)

/-- `total_errors` from `_check_port_error_trends`. -/
def totalErrors (p : PortErrors) : Nat :=
  p.rx_dropped + p.tx_dropped + p.rx_errors + p.tx_errors +
    p.rx_fcs_errors + p.tx_fcs_errors + p.rx_pause + p.tx_pause + p.rx_fragment

/-- `port_key = f"{switch_name}:{port_name}"`. -/
def portKey (p : PortErrors) : String := p.switch_name ++ ":" ++ p.port_name

/-- `deque(maxlen=3).append`: push to the right, evicting from the left
beyond three entries. -/
def pushCap3 (h : List Nat) (x : Nat) : List Nat :=
  let h' := h ++ [x]
  if h'.length > 3 then h'.drop (h'.length - 3) else h'

/-- Long-lived state of `_check_port_error_trends`: per-port bounded
history and per-port last notification time. -/
structure TrendState where
  history : List (String × List Nat)
  lastNotified : List (String × Nat)
deriving DecidableEq, Repr

/-- The history for a port after the reading of this cycle is appended. -/
def newHistory (st : TrendState) (p : PortErrors) : List Nat :=
  pushCap3 ((lookupA st.history (portKey p)).getD []) (totalErrors p)

/-- The strictly-rising test `history[0] < history[1] < history[2]`,
applied when the queue holds three readings. -/
def isRising3 (h : List Nat) : Bool :=
  match h with
  | [a, b, c] => decide (a < b) && decide (b < c)
  | _ => false

/-- The cooldown test: no notification recorded for the key, or more than
30 minutes (1800 s) elapsed since the recorded one. -/
def cooldownPassed (st : TrendState) (now : Nat) (key : String) : Bool :=
  match lookupA st.lastNotified key with
  | none => true
  | some t => decide (t + 1800 < now)

/-- One port iteration of `_check_port_error_trends`: append the reading,
then emit `port_errors_rising` when the three-long history is strictly
rising and the cooldown passed, recording the notification time. -/
def trendStep (st : TrendState) (now : Nat) (p : PortErrors) : TrendState × Bool :=
  let key := portKey p
  let h := newHistory st p
  let st := { st with history := upsert st.history key h }
  if h.length = 3 && isRising3 h then
    if cooldownPassed st now key then
      ({ st with lastNotified := upsert st.lastNotified key now }, true)
    else (st, false)
  else (st, false)

/-- `_check_port_error_trends` over the published port list of one cycle,
collecting the keys of the emitted `port_errors_rising` events. -/
def check_port_error_trends (st : TrendState) (now : Nat)
    (ports : List PortErrors) : TrendState × List String :=
  ports.foldl
    (fun acc p =>
      let r := trendStep acc.1 now p
      (r.1, if r.2 then acc.2 ++ [portKey p] else acc.2))
    (st, [])

/-- A run of consecutive cycles, each a timestamp and a published port
list; returns the final trend state and all emitted event keys. -/
def trendRun (st : TrendState) (cycles : List (Nat × List PortErrors)) :
    TrendState × List String :=
  cycles.foldl
    (fun acc c =>
      let r := check_port_error_trends acc.1 c.1 c.2
      (r.1, acc.2 ++ r.2))
    (st, [])

/-- Empty long-lived trend state (process start). -/
def initTrendState : TrendState := ⟨[], []⟩

/-- A port record of switch sw1 / port ether7 whose only nonzero counter
is `rx_errors`, giving it total error count `e`. -/
def mkPort (e : Nat) : PortErrors :=
  { switch_name := "sw1", port_name := "ether7", rx_errors := e }


/-! Concrete scenarios used as counterexamples and witnesses. -/

def c1sd : SwitchData :=
  { identity := some "edge1"
    arp := [⟨"10.0.0.5", "AA:AA:AA:AA:AA:AA", ""⟩]
    bridge_hosts := [⟨"AA:AA:AA:AA:AA:AA", "ether3", ""⟩]
    interfaces := [{ name := "ether3", running := false, speed := none }] }
def c1devs : List DeviceConfig :=
  [{ name := "srv", ip := "10.0.0.5", expected_speed := "",
     switch := some "edge1", port := some "ether3" }]
def c1res : List (String × DeviceStatus) :=
  collectStatuses c1devs (fun s => s) [(⟨"edge1", "h1"⟩, some c1sd)] true
    (fun _ => true) 50 []
def c2devs : List DeviceConfig :=
  [{ name := "d", ip := "10.0.0.5", expected_speed := "1Gbps",
     mac := some "AA:BB:CC:DD:EE:FF" }]
def c2sd : SwitchData := { dhcp_leases := [("10.0.0.9", "AA:BB:CC:DD:EE:FF")] }
def c3sts : List (String × DeviceStatus) :=
  [("10.0.0.5", { name := "d", ip := "nas.local", expected_speed := "1Gbps" })]
def c4sd : SwitchData :=
  { identity := some "sw1"
    arp := [⟨"10.0.0.7", "BB:BB:BB:BB:BB:BB", ""⟩]
    bridge_hosts := [⟨"BB:BB:BB:BB:BB:BB", "ether2", ""⟩]
    interfaces := [{ name := "ether2", speed := some "1Gbps" }] }
def c4devs : List DeviceConfig :=
  [{ name := "cam", ip := "10.0.0.7", expected_speed := "1Gbps" }]
def c4prev : List (String × DeviceStatus) :=
  [("10.0.0.7", { name := "cam", ip := "10.0.0.7", expected_speed := "1Gbps",
                  last_seen := some 100 })]
def c4res : List (String × DeviceStatus) :=
  collectStatuses c4devs (fun s => s) [(⟨"sw1", "h1"⟩, some c4sd)] true
    (fun _ => false) 200 c4prev
def c7prev : List (String × SwitchStatus) :=
  [("sw1", { name := "sw1", host := "h1", connected := true, last_check := some 0 })]
def c7res : List (String × SwitchStatus) :=
  updateSwitchStatuses c7prev
    [(⟨"sw1", "h1"⟩, none), (⟨"sw2", "h2"⟩, some { identity := some "edge2" })] 5
def c8sts : List (String × DeviceStatus) :=
  [("10.0.0.9", { name := "nas", ip := "nas.local", expected_speed := "1Gbps",
                  speed_match := true, online := true })]

/-- The status computed for 10.0.0.5 by the `c1res` cycle. -/
def c1st : DeviceStatus :=
  { name := "srv", ip := "10.0.0.5", mac := some "AA:AA:AA:AA:AA:AA",
    expected_speed := "", actual_speed := none, switch_name := some "edge1",
    port_name := some "ether3", speed_match := true, online := true,
    last_seen := some 50 }

/-- A simple online device status used to witness the liveness-step frame
theorem. -/
def c9st : DeviceStatus :=
  { name := "d", ip := "10.0.0.1", expected_speed := "1Gbps", online := true }

/-- Seeded status of the C4 scenario device before Pass C. -/
def c4seed : DeviceStatus :=
  { name := "cam", ip := "10.0.0.7", expected_speed := "1Gbps", last_seen := some 100 }

/-- A switch-status map records name `n` as connected at time `now`, with
no error string. -/
def GoodSwitch (n : String) (now : Nat) (m : List (String × SwitchStatus)) : Prop :=
  ∃ st, lookupA m n = some st ∧ st.connected = true ∧ st.error = none ∧
    st.last_check = some now

/-- The status recorded for a connected switch in `_process_switch_data`. -/
def connRec (cfg : SwitchConfig) (d : SwitchData) (now : Nat) : SwitchStatus :=
  { name := identityOf cfg.name d
    host := cfg.host
    connected := true
    error := none
    last_check := some now }

/-- A snapshot with two matched devices in reverse numeric order, used to
witness the matched-device sorting theorem. -/
def c8wsts : List (String × DeviceStatus) :=
  [("10.0.0.10", { name := "b", ip := "10.0.0.10", expected_speed := "1Gbps",
                   speed_match := true, online := true }),
   ("10.0.0.2", { name := "a", ip := "10.0.0.2", expected_speed := "1Gbps",
                  speed_match := true, online := true })]

/-- Switch A of the C6 witness: the device MAC sits behind uplink port
ether1. -/
def c6A : SwitchData :=
  { identity := some "edgeA"
    bridge_hosts := [⟨"CC:CC:CC:CC:CC:CC", "ether1", ""⟩]
    uplink_ports := [("ether1", "edgeB")] }

/-- Switch B of the C6 witness: the device MAC sits behind access port
ether5. -/
def c6B : SwitchData :=
  { identity := some "edgeB"
    bridge_hosts := [⟨"CC:CC:CC:CC:CC:CC", "ether5", ""⟩]
    interfaces := [{ name := "ether5", speed := some "1Gbps" }] }

/-- Index and seeded status of the C6 witness device. -/
def c6idx : List (String × String) := [("CC:CC:CC:CC:CC:CC", "10.0.0.9")]

def c6st0 : DeviceStatus :=
  { name := "pc", ip := "10.0.0.9", expected_speed := "1Gbps" }

/-- Pinned inventory entry of the C10 witness: expected on edge2/ether10. -/
def c10cfg : DeviceConfig :=
  { name := "srv2", ip := "10.0.0.8", expected_speed := "1Gbps",
    switch := some "edge2", port := some "ether10" }

/-- Switch data of the C10 witness: the MAC is in the bridge table but
the pinned port ether10 is absent from the interface list. -/
def c10sd : SwitchData :=
  { identity := some "edge2"
    bridge_hosts := [⟨"DD:DD:DD:DD:DD:DD", "ether2", ""⟩]
    interfaces := [{ name := "sfp1", speed := some "10Gbps" }] }

def c10st0 : DeviceStatus :=
  { name := "srv2", ip := "10.0.0.8", expected_speed := "1Gbps" }

end NetStats



namespace NetStats

theorem lookupA_upsert {α : Type} (m : List (String × α)) (k k' : String) (v : α) :
    lookupA (upsert m k v) k' = if k = k' then some v else lookupA m k' := by
  induction m with
  | nil => simp [upsert, lookupA]
  | cons h t ih =>
    obtain ⟨k0, v0⟩ := h
    by_cases hk : k0 = k
    · subst hk
      by_cases hk' : k0 = k'
      · subst hk'; simp [upsert, lookupA]
      · simp [upsert, lookupA, hk']
    · by_cases hk' : k0 = k'
      · subst hk'
        have hne : ¬ k = k0 := fun h => hk h.symm
        simp [upsert, lookupA, hk, hne]
      · simp [upsert, lookupA, hk, hk', ih]

theorem lookupA_upsert_self {α : Type} (m : List (String × α)) (k : String) (v : α) :
    lookupA (upsert m k v) k = some v := by
  simp [lookupA_upsert]

theorem lookupA_upsert_ne {α : Type} (m : List (String × α)) {k k' : String} (v : α)
    (h : k ≠ k') : lookupA (upsert m k v) k' = lookupA m k' := by
  simp [lookupA_upsert, h]

theorem lookupA_mem {α : Type} :
    ∀ (m : List (String × α)) (k : String) (v : α), lookupA m k = some v → (k, v) ∈ m := by
  intro m
  induction m with
  | nil => intro k v h; simp [lookupA] at h
  | cons p t ih =>
    intro k v h
    obtain ⟨k0, v0⟩ := p
    by_cases hk : k0 = k
    · subst hk
      simp [lookupA] at h
      simp [h]
    · simp [lookupA, hk] at h
      exact List.mem_cons_of_mem _ (ih k v h)

theorem lookupA_verifyCore (prs : List (String × Bool)) (sts : List (String × DeviceStatus))
    (ip : String) :
    lookupA (verifyCore prs sts) ip =
      (lookupA sts ip).map
        (fun st =>
          if prs.any (fun p => decide (p.1 = ip) && !p.2) then { st with online := false }
          else st) := by
  induction prs generalizing sts with
  | nil => cases h : lookupA sts ip <;> simp [verifyCore, h]
  | cons p rest ih =>
    obtain ⟨k, r⟩ := p
    simp only [verifyCore, List.foldl_cons] at ih ⊢
    cases r with
    | true =>
      rw [ih]
      simp [verifyStep]
    | false =>
      by_cases hk : k = ip
      · subst hk
        cases hst : lookupA sts k with
        | none =>
          rw [ih]
          simp [verifyStep, hst]
        | some st =>
          rw [ih]
          simp only [verifyStep, hst, if_neg (by simp : ¬ (false : Bool) = true)]
          rw [lookupA_upsert_self]
          simp only [Option.map_some, List.any_cons]
          split <;> rfl
      · cases hst : lookupA sts k with
        | none =>
          rw [ih]
          simp [verifyStep, hst, hk]
        | some st =>
          rw [ih]
          have : lookupA (upsert sts k { st with online := false }) ip = lookupA sts ip :=
            lookupA_upsert_ne _ _ hk
          simp [verifyStep, hst, this, hk]

theorem lookupA_stepMac (cfgMap : List (String × DeviceConfig)) (idn : String)
    (up : List (String × String)) (ps : List (String × Option String))
    (idx : List (String × String)) (now : Nat) (sts : List (String × DeviceStatus))
    (e : String × String) (ip : String) :
    lookupA (stepMac cfgMap idn up ps idx now sts e) ip =
      if lookupA idx e.1 = some ip then
        (lookupA sts ip).map (updStatus (lookupA cfgMap ip) idn up ps e.1 e.2 now)
      else lookupA sts ip := by
  obtain ⟨mac, port⟩ := e
  simp only [stepMac]
  cases hidx : lookupA idx mac with
  | none => simp [hidx]
  | some ip' =>
    by_cases hip : ip' = ip
    · subst hip
      cases hst : lookupA sts ip' with
      | none => simp [hst]
      | some st => simp [hst, lookupA_upsert_self]
    · cases hst : lookupA sts ip' with
      | none => simp [hst, hip]
      | some st =>
        have hne : lookupA (upsert sts ip'
            (updStatus (lookupA cfgMap ip') idn up ps mac port now st)) ip
            = lookupA sts ip := lookupA_upsert_ne _ _ hip
        simp [hst, hip, hne]

theorem lookupA_processFold (cfgMap : List (String × DeviceConfig)) (idn : String)
    (up : List (String × String)) (ps : List (String × Option String))
    (idx : List (String × String)) (now : Nat) :
    ∀ (l : List (String × String)) (sts : List (String × DeviceStatus)) (ip : String),
      lookupA (l.foldl (stepMac cfgMap idn up ps idx now) sts) ip =
        applyHits (lookupA cfgMap ip) idn up ps idx now ip l (lookupA sts ip) := by
  intro l
  induction l with
  | nil => intro sts ip; simp [applyHits]
  | cons e rest ih =>
    intro sts ip
    simp only [List.foldl_cons, applyHits] at ih ⊢
    rw [ih, lookupA_stepMac]

theorem applyHits_eq_filter (cfg : Option DeviceConfig) (idn : String)
    (up : List (String × String)) (ps : List (String × Option String))
    (idx : List (String × String)) (now : Nat) (ip : String) :
    ∀ (l : List (String × String)) (o : Option DeviceStatus),
      applyHits cfg idn up ps idx now ip l o =
        (hitsOf idx ip l).foldl
          (fun o e => o.map (updStatus cfg idn up ps e.1 e.2 now)) o := by
  intro l
  induction l with
  | nil => intro o; simp [applyHits, hitsOf]
  | cons e rest ih =>
    intro o
    by_cases h : lookupA idx e.1 = some ip
    · simp only [applyHits, hitsOf, List.foldl_cons, List.filter_cons] at ih ⊢
      simp only [h, List.foldl_cons, if_true, decide_eq_true_eq, ite_true]
      rw [ih]
    · simp only [applyHits, hitsOf, List.foldl_cons, List.filter_cons] at ih ⊢
      simp only [h, decide_eq_true_eq, ite_false, if_false]
      rw [ih]

theorem setSpeed_online (sp : Option String) (st : DeviceStatus) :
    (setSpeed sp st).online = st.online := rfl

theorem setSpeed_last_seen (sp : Option String) (st : DeviceStatus) :
    (setSpeed sp st).last_seen = st.last_seen := rfl

theorem autoUpd_online (idn : String) (up : List (String × String))
    (ps : List (String × Option String)) (port : String) (st : DeviceStatus) :
    (autoUpd idn up ps port st).online = st.online := by
  unfold autoUpd
  split
  · split <;> rfl
  · rfl

theorem autoUpd_last_seen (idn : String) (up : List (String × String))
    (ps : List (String × Option String)) (port : String) (st : DeviceStatus) :
    (autoUpd idn up ps port st).last_seen = st.last_seen := by
  unfold autoUpd
  split
  · split <;> rfl
  · rfl

theorem pinApply_online (c : DeviceConfig) (idn : String)
    (ps : List (String × Option String)) (st : DeviceStatus) :
    (pinApply c idn ps st).online = st.online := by
  unfold pinApply
  split
  · split
    · split <;> rfl
    · rfl
  · rfl

theorem pinApply_last_seen (c : DeviceConfig) (idn : String)
    (ps : List (String × Option String)) (st : DeviceStatus) :
    (pinApply c idn ps st).last_seen = st.last_seen := by
  unfold pinApply
  split
  · split
    · split <;> rfl
    · rfl
  · rfl

theorem updStatus_online (cfg : Option DeviceConfig) (idn : String)
    (up : List (String × String)) (ps : List (String × Option String))
    (mac port : String) (now : Nat) (st0 : DeviceStatus) :
    (updStatus cfg idn up ps mac port now st0).online = true := by
  cases cfg with
  | none => simp only [updStatus]; rw [autoUpd_online]; rfl
  | some c =>
    simp only [updStatus]
    split
    · rw [pinApply_online]; rfl
    · rw [autoUpd_online]; rfl

theorem updStatus_last_seen (cfg : Option DeviceConfig) (idn : String)
    (up : List (String × String)) (ps : List (String × Option String))
    (mac port : String) (now : Nat) (st0 : DeviceStatus) :
    (updStatus cfg idn up ps mac port now st0).last_seen = some now := by
  cases cfg with
  | none => simp only [updStatus]; rw [autoUpd_last_seen]; rfl
  | some c =>
    simp only [updStatus]
    split
    · rw [pinApply_last_seen]; rfl
    · rw [autoUpd_last_seen]; rfl

theorem speedCoherent_setSpeed (sp : Option String) (st : DeviceStatus) :
    SpeedCoherent (setSpeed sp st) := by
  intro h
  exact of_decide_eq_true h

theorem speedCoherent_autoUpd (idn : String) (up : List (String × String))
    (ps : List (String × Option String)) (port : String) (st : DeviceStatus)
    (h : SpeedCoherent st) : SpeedCoherent (autoUpd idn up ps port st) := by
  unfold autoUpd
  split
  · split
    · exact speedCoherent_setSpeed _ _
    · exact h
  · exact h

theorem speedCoherent_pinApply (c : DeviceConfig) (idn : String)
    (ps : List (String × Option String)) (st : DeviceStatus)
    (h : SpeedCoherent st) : SpeedCoherent (pinApply c idn ps st) := by
  unfold pinApply
  split
  · split
    · split
      · exact speedCoherent_setSpeed _ _
      · exact h
    · exact h
  · exact h

theorem speedCoherent_baseUpd (mac : String) (now : Nat) (st : DeviceStatus)
    (h : SpeedCoherent st) : SpeedCoherent (baseUpd mac now st) := h

theorem speedCoherent_updStatus (cfg : Option DeviceConfig) (idn : String)
    (up : List (String × String)) (ps : List (String × Option String))
    (mac port : String) (now : Nat) (st0 : DeviceStatus)
    (h : SpeedCoherent st0) : SpeedCoherent (updStatus cfg idn up ps mac port now st0) := by
  cases cfg with
  | none =>
    simp only [updStatus]
    exact speedCoherent_autoUpd _ _ _ _ _ (speedCoherent_baseUpd _ _ _ h)
  | some c =>
    simp only [updStatus]
    split
    · exact speedCoherent_pinApply _ _ _ _ (speedCoherent_baseUpd _ _ _ h)
    · exact speedCoherent_autoUpd _ _ _ _ _ (speedCoherent_baseUpd _ _ _ h)

theorem allVals_upsert {P : DeviceStatus → Prop} {m : List (String × DeviceStatus)}
    (k : String) {v : DeviceStatus} (hm : AllVals P m) (hv : P v) :
    AllVals P (upsert m k v) := by
  intro ip st h
  rw [lookupA_upsert] at h
  split at h
  · cases h; exact hv
  · exact hm _ _ h

theorem allVals_stepMac {cfgMap : List (String × DeviceConfig)} {idn : String}
    {up : List (String × String)} {ps : List (String × Option String)}
    {idx : List (String × String)} {now : Nat} {sts : List (String × DeviceStatus)}
    (e : String × String) (hm : AllVals SpeedCoherent sts) :
    AllVals SpeedCoherent (stepMac cfgMap idn up ps idx now sts e) := by
  intro ip0 st0 h0
  rw [lookupA_stepMac] at h0
  split at h0
  · obtain ⟨st1, hst1, hupd⟩ := Option.map_eq_some'.mp h0
    rw [← hupd]
    exact speedCoherent_updStatus _ _ _ _ _ _ _ _ (hm _ _ hst1)
  · exact hm _ _ h0

theorem allVals_processFold {cfgMap : List (String × DeviceConfig)} {idn : String}
    {up : List (String × String)} {ps : List (String × Option String)}
    {idx : List (String × String)} {now : Nat} :
    ∀ (l : List (String × String)) (sts : List (String × DeviceStatus)),
      AllVals SpeedCoherent sts →
      AllVals SpeedCoherent (l.foldl (stepMac cfgMap idn up ps idx now) sts) := by
  intro l
  induction l with
  | nil => intro sts hm; exact hm
  | cons e rest ih =>
    intro sts hm
    rw [List.foldl_cons]
    exact ih _ (allVals_stepMac e hm)

theorem allVals_process_switch_data {cfgMap : List (String × DeviceConfig)}
    {cfgName : String} {sd : SwitchData} {idx : List (String × String)} {now : Nat}
    {sts : List (String × DeviceStatus)} (hm : AllVals SpeedCoherent sts) :
    AllVals SpeedCoherent (process_switch_data cfgMap cfgName sd idx now sts) :=
  allVals_processFold _ _ hm

theorem allVals_processAllSwitches {cfgMap : List (String × DeviceConfig)}
    {idx : List (String × String)} {now : Nat} :
    ∀ (connected : List (SwitchConfig × SwitchData)) (sts : List (String × DeviceStatus)),
      AllVals SpeedCoherent sts →
      AllVals SpeedCoherent (processAllSwitches cfgMap idx now connected sts) := by
  intro connected
  induction connected with
  | nil => intro sts hm; exact hm
  | cons p rest ih =>
    intro sts hm
    simp only [processAllSwitches, List.foldl_cons] at ih ⊢
    exact ih _ (allVals_process_switch_data hm)

theorem allVals_seedStatuses (resolve : String → String)
    (prev : List (String × DeviceStatus)) :
    ∀ (devices : List DeviceConfig)
      (acc : List (String × DeviceConfig) × List (String × DeviceStatus)),
      AllVals SpeedCoherent acc.2 →
      AllVals SpeedCoherent (devices.foldl (seedStep resolve prev) acc).2 := by
  intro devices
  induction devices with
  | nil => intro acc hm; exact hm
  | cons d rest ih =>
    intro acc hm
    rw [List.foldl_cons]
    refine ih _ ?_
    refine allVals_upsert _ hm ?_
    intro h
    simp at h

theorem allVals_verifyStep {sts : List (String × DeviceStatus)} (p : String × Bool)
    (hm : AllVals SpeedCoherent sts) : AllVals SpeedCoherent (verifyStep sts p) := by
  unfold verifyStep
  split
  · exact hm
  · cases hst : lookupA sts p.1 with
    | none => exact hm
    | some st =>
      refine allVals_upsert _ hm ?_
      intro h
      exact hm _ _ hst h

theorem allVals_verifyCore :
    ∀ (prs : List (String × Bool)) (sts : List (String × DeviceStatus)),
      AllVals SpeedCoherent sts → AllVals SpeedCoherent (verifyCore prs sts) := by
  intro prs
  induction prs with
  | nil => intro sts hm; exact hm
  | cons p rest ih =>
    intro sts hm
    simp only [verifyCore, List.foldl_cons] at ih ⊢
    exact ih _ (allVals_verifyStep p hm)

theorem allVals_verify_online_with_ping {swNonempty connectOk : Bool}
    {ping : String → Bool} {sts : List (String × DeviceStatus)}
    (hm : AllVals SpeedCoherent sts) :
    AllVals SpeedCoherent (verify_online_with_ping swNonempty connectOk ping sts) := by
  unfold verify_online_with_ping
  dsimp only
  split
  · exact hm
  · split
    · exact hm
    · split
      · exact allVals_verifyCore _ _ hm
      · exact hm

theorem allVals_collectStatuses (devices : List DeviceConfig)
    (resolve : String → String) (sds : List (SwitchConfig × Option SwitchData))
    (pingConnectOk : Bool) (ping : String → Bool) (now : Nat)
    (prev : List (String × DeviceStatus)) :
    AllVals SpeedCoherent
      (collectStatuses devices resolve sds pingConnectOk ping now prev) := by
  unfold collectStatuses
  refine allVals_verify_online_with_ping ?_
  refine allVals_processAllSwitches _ _ ?_
  exact allVals_seedStatuses resolve prev devices ([], []) (fun ip st h => by simp [lookupA] at h)

/-- C1: the claim as stated is false on the code.  In the concrete
collection cycle `c1res` (expected speed `""`, pinned port present but
with no detected rate), the published device status has
`speed_match = true` while `actual_speed = ⊥`: Python computes
`None == None` as `True`, so ⊥ does compare equal to ⊥. -/
theorem C1_counterexample :
    (lookupA c1res "10.0.0.5").map (fun st => (st.speed_match, st.actual_speed))
      = some (true, none) := by decide

/-- C1 (amended): for every device status after a collection cycle, if
`speed_match` is true then `actual_speed` equals
`normalize(expected_speed)`; `actual_speed` can only be ⊥ in that case
when `normalize(expected_speed)` is itself ⊥. -/
theorem C1_speed_match_coherent (devices : List DeviceConfig)
    (resolve : String → String) (sds : List (SwitchConfig × Option SwitchData))
    (pingConnectOk : Bool) (ping : String → Bool) (now : Nat)
    (prev : List (String × DeviceStatus)) (ip : String) (st : DeviceStatus)
    (h : lookupA (collectStatuses devices resolve sds pingConnectOk ping now prev) ip
        = some st)
    (hm : st.speed_match = true) :
    st.actual_speed = normalize_speed (some st.expected_speed) :=
  allVals_collectStatuses devices resolve sds pingConnectOk ping now prev ip st h hm

/-- Witness for the amended C1 theorem at the concrete cycle `c1res`. -/
theorem C1_witness :
    c1st.actual_speed = normalize_speed (some c1st.expected_speed) :=
  C1_speed_match_coherent c1devs (fun s => s) [(⟨"edge1", "h1"⟩, some c1sd)] true
    (fun _ => true) 50 [] "10.0.0.5" c1st (by decide) (by decide)

/-- C2: the claim as stated is false on the code.  With an
inventory-configured MAC binding `AA:BB:CC:DD:EE:FF → 10.0.0.5`, no ARP
entry at all, and a DHCP lease `10.0.0.9 → AA:BB:CC:DD:EE:FF`, the final
MAC binding is still the inventory one: the DHCP overlay never overrides
an existing key, whether it came from ARP or from the inventory. -/
theorem C2_counterexample :
    c2sd.arp = [] ∧
      c2sd.dhcp_leases = [("10.0.0.9", "AA:BB:CC:DD:EE:FF")] ∧
      lookupA (buildIndex c2devs [c2sd]).1 "AA:BB:CC:DD:EE:FF" = some "10.0.0.5" := by
  decide

/-- C2 (amended): the index overlays realize the precedence
DHCP < inventory < ARP, key by key: an ARP entry overwrites the current
binding for its MAC and its IP unconditionally, while a DHCP lease is
written only when the index holds no binding at all for that MAC
(respectively that IP) — in particular it never overrides an
inventory-configured binding. -/
theorem C2_index_precedence :
    (∀ (idx : IpMacIndex) (e : ArpEntry),
        lookupA (addArpEntry idx e).1 e.mac = some e.ip ∧
          lookupA (addArpEntry idx e).2 e.ip = some e.mac) ∧
      (∀ (idx : IpMacIndex) (ip mac ip0 : String),
          lookupA idx.1 mac = some ip0 →
            lookupA (addDhcpLease idx ip mac).1 mac = some ip0) ∧
      (∀ (idx : IpMacIndex) (ip mac : String),
          lookupA idx.1 mac = none →
            lookupA (addDhcpLease idx ip mac).1 mac = some ip) ∧
      (∀ (idx : IpMacIndex) (ip mac m0 : String),
          lookupA idx.2 ip = some m0 →
            lookupA (addDhcpLease idx ip mac).2 ip = some m0) ∧
      (∀ (idx : IpMacIndex) (ip mac : String),
          lookupA idx.2 ip = none →
            lookupA (addDhcpLease idx ip mac).2 ip = some mac) := by
  refine ⟨?_, ?_, ?_, ?_, ?_⟩
  · intro idx e
    exact ⟨lookupA_upsert_self _ _ _, lookupA_upsert_self _ _ _⟩
  · intro idx ip mac ip0 h
    simp only [addDhcpLease, h, Option.isSome_some, if_true]
  · intro idx ip mac h
    simp only [addDhcpLease, h, Option.isSome_none, Bool.false_eq_true, if_false]
    exact lookupA_upsert_self _ _ _
  · intro idx ip mac m0 h
    simp only [addDhcpLease, h, Option.isSome_some, if_true]
  · intro idx ip mac h
    simp only [addDhcpLease, h, Option.isSome_none, Bool.false_eq_true, if_false]
    exact lookupA_upsert_self _ _ _

/-- Witness for the amended C2 theorem at concrete index states. -/
theorem C2_witness :
    lookupA (addArpEntry ([("AA", "ip0")], []) ⟨"ip1", "AA", ""⟩).1 "AA" = some "ip1" ∧
      lookupA (addDhcpLease ([("AA", "ip0")], []) "ip2" "AA").1 "AA" = some "ip0" ∧
      lookupA (addDhcpLease ([], []) "ip2" "AA").1 "AA" = some "ip2" ∧
      lookupA (addDhcpLease ([], [("ip3", "BB")]) "ip3" "CC").2 "ip3" = some "BB" ∧
      lookupA (addDhcpLease ([], []) "ip3" "CC").2 "ip3" = some "CC" :=
  ⟨(C2_index_precedence.1 ([("AA", "ip0")], []) ⟨"ip1", "AA", ""⟩).1,
   C2_index_precedence.2.1 ([("AA", "ip0")], []) "ip2" "AA" "ip0" (by decide),
   C2_index_precedence.2.2.1 ([], []) "ip2" "AA" (by decide),
   C2_index_precedence.2.2.2.1 ([], [("ip3", "BB")]) "ip3" "CC" "BB" (by decide),
   C2_index_precedence.2.2.2.2 ([], []) "ip3" "CC" (by decide)⟩

/-- C3: the claim as stated is false on the code.  The online sets hold
display addresses while the snapshot map is keyed by resolved IPs; for a
device whose display address (`nas.local`) differs from its key
(`10.0.0.5`), the ip is in `prev_online \\ cur_online` yet no
`device_offline` event is emitted, because the emission loop looks the
display address up in the resolved-IP-keyed map and finds nothing. -/
theorem C3_counterexample :
    "nas.local" ∈ (["nas.local"] : List String) ∧
      "nas.local" ∉ current_online c3sts ∧
      offline_events c3sts ["nas.local"] = [] := by decide

/-- C3 (amended): `device_offline` is emitted exactly for the ips in
`prev_online \\ cur_online` that are keys of the published snapshot, and
`device_online` exactly for the ips in `cur_online \\ prev_online` that
are keys of the snapshot — the latter additionally requiring that
`prev_online` was non-empty (first-cycle suppression). -/
theorem C3_offline_online_events (sts : List (String × DeviceStatus))
    (prevOnline : List String) (ip : String) :
    (ip ∈ offline_events sts prevOnline ↔
      ip ∈ prevOnline ∧ ip ∉ current_online sts ∧ (lookupA sts ip).isSome = true) ∧
      (ip ∈ online_events sts prevOnline ↔
        ip ∈ current_online sts ∧ ip ∉ prevOnline ∧
          (lookupA sts ip).isSome = true ∧ prevOnline ≠ []) := by
  constructor
  · simp [offline_events, List.mem_filter, and_assoc]
  · simp [online_events, List.mem_filter, and_assoc, List.isEmpty_iff]

theorem verifyCore_only_clears (prs : List (String × Bool))
    (sts : List (String × DeviceStatus)) (ip : String) (st : DeviceStatus)
    (h : lookupA sts ip = some st) :
    ∃ b, lookupA (verifyCore prs sts) ip = some { st with online := b } ∧
      (b = true → st.online = true) ∧
      ((∀ r, (ip, r) ∈ prs → r = true) → b = st.online) := by
  rw [lookupA_verifyCore, h]
  by_cases hkill : prs.any (fun p => decide (p.1 = ip) && !p.2) = true
  · refine ⟨false, by simp [hkill], by simp, ?_⟩
    intro hall
    exfalso
    obtain ⟨p, hmem, hp⟩ := List.any_eq_true.mp hkill
    rw [Bool.and_eq_true] at hp
    have h1 : p.1 = ip := of_decide_eq_true hp.1
    have h2 : p.2 = false := by
      cases hp2 : p.2
      · rfl
      · rw [hp2] at hp; exact absurd hp.2 (by simp)
    have : p.2 = true := by
      refine hall p.2 ?_
      have : (ip, p.2) = p := by
        rw [← h1]
      rw [this]
      exact hmem
    rw [h2] at this
    exact Bool.false_ne_true this
  · refine ⟨st.online, ?_, fun hb => hb, fun _ => rfl⟩
    simp only [Bool.not_eq_true] at hkill
    simp [hkill]

/-- C9: the liveness verification step only ever clears the online flag.
For every device in the statuses map, the verified map stores the same
record with at most the `online` field changed; the result can be online
only if the input was online; and the device is left unchanged whenever
its ping succeeded, it was not online (hence absent from the ping list),
the router connection failed, or there were no switches. -/
theorem C9_verify_frame (swNonempty connectOk : Bool) (ping : String → Bool)
    (sts : List (String × DeviceStatus)) (ip : String) (st : DeviceStatus)
    (h : lookupA sts ip = some st) :
    ∃ b, lookupA (verify_online_with_ping swNonempty connectOk ping sts) ip
        = some { st with online := b } ∧
      (b = true → st.online = true) ∧
      (ping ip = true → b = st.online) ∧
      (st.online = false → b = st.online) ∧
      (connectOk = false → b = st.online) ∧
      (swNonempty = false → b = st.online) := by
  unfold verify_online_with_ping
  dsimp only
  split
  · exact ⟨st.online, h, fun hb => hb, fun _ => rfl, fun _ => rfl, fun _ => rfl,
      fun _ => rfl⟩
  · next hsw =>
    split
    · exact ⟨st.online, h, fun hb => hb, fun _ => rfl, fun _ => rfl, fun _ => rfl,
        fun _ => rfl⟩
    · split
      · next hck =>
        obtain ⟨b, hb, hb1, hb2⟩ := verifyCore_only_clears
          (List.map (fun i => (i, ping i))
            (List.map Prod.fst (List.filter (fun p => p.2.online) sts))) sts ip st h
        refine ⟨b, hb, hb1, ?_, ?_, ?_, ?_⟩
        · intro hping
          refine hb2 ?_
          intro r hr
          obtain ⟨i, _, hpair⟩ := List.mem_map.mp hr
          obtain ⟨hi, hri⟩ := Prod.mk.inj hpair
          rw [← hri, hi, hping]
        · intro hoff
          cases hbv : b
          · rw [hoff]
          · rw [hb1 hbv] at hoff; exact absurd hoff (by simp)
        · intro h5; rw [h5] at hck; exact absurd hck (by simp)
        · intro h6; rw [h6] at hsw; simp at hsw
      · exact ⟨st.online, h, fun hb => hb, fun _ => rfl, fun _ => rfl, fun _ => rfl,
          fun _ => rfl⟩

theorem lookupA_process_switch_data (cfgMap : List (String × DeviceConfig))
    (cfgName : String) (sd : SwitchData) (idx : List (String × String)) (now : Nat)
    (sts : List (String × DeviceStatus)) (ip : String) :
    lookupA (process_switch_data cfgMap cfgName sd idx now sts) ip =
      (hitsOf idx ip (macToPortOf sd)).foldl
        (fun o e =>
          o.map (updStatus (lookupA cfgMap ip) (identityOf cfgName sd)
            sd.uplink_ports (portSpeedOf sd) e.1 e.2 now))
        (lookupA sts ip) := by
  unfold process_switch_data
  rw [lookupA_processFold, applyHits_eq_filter]

/-- Witness for the liveness-step frame theorem at a concrete snapshot. -/
theorem C9_witness :
    ∃ b, lookupA (verify_online_with_ping true true (fun _ => true)
        [("10.0.0.1", c9st)]) "10.0.0.1" = some { c9st with online := b } ∧
      (b = true → c9st.online = true) ∧
      ((fun (_ : String) => true) "10.0.0.1" = true → b = c9st.online) ∧
      (c9st.online = false → b = c9st.online) ∧
      ((true : Bool) = false → b = c9st.online) ∧
      ((true : Bool) = false → b = c9st.online) :=
  C9_verify_frame true true (fun _ => true) [("10.0.0.1", c9st)] "10.0.0.1" c9st
    (by decide)

/-- C4: the claim as stated is false on the code.  In the concrete cycle
`c4res`, the device carried `last_seen = 100` from the previous cycle,
was attributed at `now = 200` (which set `last_seen := 200`), and then
failed the ping: the published status has `online = false` but
`last_seen = 200`, not the carried-over 100 — Pass C advances `last_seen`
before the liveness verifier runs, and the verifier does not restore it. -/
theorem C4_counterexample :
    (lookupA c4prev "10.0.0.7").map (fun st => st.last_seen) = some (some 100) ∧
      (lookupA c4res "10.0.0.7").map (fun st => (st.online, st.last_seen))
        = some (false, some 200) := by decide

/-- C4 (amended): a device attributed in this cycle whose ping fails is
forced to `online = false`, and its `last_seen` is the attribution time
of the current cycle (the liveness verifier does not modify `last_seen`, but
Pass C has already advanced it to now). -/
theorem C4_ping_fail_keeps_cycle_time (cfgMap : List (String × DeviceConfig))
    (cfgName : String) (sd : SwitchData) (idx : List (String × String)) (now : Nat)
    (sts : List (String × DeviceStatus)) (ip mac port : String) (st0 : DeviceStatus)
    (ping : String → Bool)
    (hhit : hitsOf idx ip (macToPortOf sd) = [(mac, port)])
    (hst : lookupA sts ip = some st0)
    (hping : ping ip = false) :
    ∃ st', lookupA (verify_online_with_ping true true ping
        (process_switch_data cfgMap cfgName sd idx now sts)) ip = some st' ∧
      st'.online = false ∧ st'.last_seen = some now := by
  have hlook : lookupA (process_switch_data cfgMap cfgName sd idx now sts) ip
      = some (updStatus (lookupA cfgMap ip) (identityOf cfgName sd) sd.uplink_ports
          (portSpeedOf sd) mac port now st0) := by
    rw [lookupA_process_switch_data, hhit, hst]
    rfl
  have honline : (updStatus (lookupA cfgMap ip) (identityOf cfgName sd) sd.uplink_ports
      (portSpeedOf sd) mac port now st0).online = true := updStatus_online _ _ _ _ _ _ _ _
  have hlast : (updStatus (lookupA cfgMap ip) (identityOf cfgName sd) sd.uplink_ports
      (portSpeedOf sd) mac port now st0).last_seen = some now :=
    updStatus_last_seen _ _ _ _ _ _ _ _
  have hmem1 : (ip, updStatus (lookupA cfgMap ip) (identityOf cfgName sd) sd.uplink_ports
      (portSpeedOf sd) mac port now st0) ∈ process_switch_data cfgMap cfgName sd idx now sts :=
    lookupA_mem _ _ _ hlook
  have hin : ip ∈ List.map Prod.fst
      (List.filter (fun p => p.2.online)
        (process_switch_data cfgMap cfgName sd idx now sts)) := by
    refine List.mem_map.mpr ⟨_, List.mem_filter.mpr ⟨hmem1, honline⟩, rfl⟩
  unfold verify_online_with_ping
  dsimp only
  rw [if_neg (by simp)]
  rw [if_neg (by
    rw [List.isEmpty_iff]
    exact fun hemp => absurd (hemp ▸ hin) (List.not_mem_nil ip))]
  rw [if_pos rfl]
  rw [lookupA_verifyCore, hlook]
  rw [Option.map_some']
  rw [if_pos (by
    refine List.any_eq_true.mpr ⟨(ip, ping ip), List.mem_map.mpr ⟨ip, hin, rfl⟩, ?_⟩
    simp [hping])]
  exact ⟨_, rfl, rfl, hlast⟩

/-- Witness for the amended C4 theorem at the concrete scenario. -/
theorem C4_witness :
    ∃ st', lookupA (verify_online_with_ping true true (fun _ => false)
        (process_switch_data [] "sw1" c4sd [("BB:BB:BB:BB:BB:BB", "10.0.0.7")] 200
          [("10.0.0.7", c4seed)])) "10.0.0.7" = some st' ∧
      st'.online = false ∧ st'.last_seen = some 200 :=
  C4_ping_fail_keeps_cycle_time [] "sw1" c4sd [("BB:BB:BB:BB:BB:BB", "10.0.0.7")] 200
    [("10.0.0.7", c4seed)] "10.0.0.7" "BB:BB:BB:BB:BB:BB" "ether2" c4seed (fun _ => false)
    (by decide) (by decide) rfl

/-- C5: a `port_errors_rising` event is emitted in a cycle exactly when
the bounded history (after appending the reading of this cycle) holds three
strictly increasing readings and the 30-minute per-port cooldown passed;
the total-error sequence [0,1,2] over three cycles 10 s apart emits
exactly one event, [2,2,3] emits none, and [1,2,3,4,5] over five cycles
emits exactly one (the cooldown suppresses the later rising windows). -/
theorem C5_port_errors_rising :
    (∀ (st : TrendState) (now : Nat) (p : PortErrors),
        (trendStep st now p).2 = true ↔
          (newHistory st p).length = 3 ∧ isRising3 (newHistory st p) = true ∧
            cooldownPassed st now (portKey p) = true) ∧
      ((trendRun initTrendState
          [(0, [mkPort 0]), (10, [mkPort 1]), (20, [mkPort 2])]).2).length = 1 ∧
      ((trendRun initTrendState
          [(0, [mkPort 2]), (10, [mkPort 2]), (20, [mkPort 3])]).2).length = 0 ∧
      ((trendRun initTrendState
          [(0, [mkPort 1]), (10, [mkPort 2]), (20, [mkPort 3]),
           (30, [mkPort 4]), (40, [mkPort 5])]).2).length = 1 := by
  refine ⟨?_, by decide, by decide, by decide⟩
  intro st now p
  unfold trendStep
  dsimp only
  constructor
  · intro he
    split at he
    · next hcond =>
      rw [Bool.and_eq_true] at hcond
      split at he
      · next hcool => exact ⟨of_decide_eq_true hcond.1, hcond.2, hcool⟩
      · exact absurd he (by simp)
    · exact absurd he (by simp)
  · rintro ⟨h1, h2, h3⟩
    rw [if_pos (by rw [Bool.and_eq_true]; exact ⟨decide_eq_true h1, h2⟩)]
    rw [if_pos (show cooldownPassed
      { history := upsert st.history (portKey p) (newHistory st p),
        lastNotified := st.lastNotified } now (portKey p) = true from h3)]

theorem updateSwitchStatuses_frame (now : Nat) (n : String) :
    ∀ (sds : List (SwitchConfig × Option SwitchData)) (prev : List (String × SwitchStatus)),
      (∀ p ∈ sds, p.2.isSome = true → p.1.name ≠ n) →
      lookupA (updateSwitchStatuses prev sds now) n = lookupA prev n := by
  intro sds
  induction sds with
  | nil => intro prev _; rfl
  | cons p rest ih =>
    intro prev h
    simp only [updateSwitchStatuses, List.foldl_cons] at ih ⊢
    cases hp : p.2 with
    | none =>
      rw [show switchStatusStep now prev p = prev from by simp [switchStatusStep, hp]]
      exact ih prev (fun q hq => h q (List.mem_cons_of_mem _ hq))
    | some d =>
      have hname : p.1.name ≠ n := h p (List.mem_cons_self _ _) (by simp [hp])
      rw [ih _ (fun q hq => h q (List.mem_cons_of_mem _ hq))]
      simp only [switchStatusStep, hp]
      exact lookupA_upsert_ne _ _ hname

theorem goodSwitch_step (now : Nat) (n : String) (m : List (String × SwitchStatus))
    (p : SwitchConfig × Option SwitchData) (h : GoodSwitch n now m) :
    GoodSwitch n now (switchStatusStep now m p) := by
  obtain ⟨st, hst, h1, h2, h3⟩ := h
  cases hp : p.2 with
  | none => exact ⟨st, by simp [switchStatusStep, hp, hst], h1, h2, h3⟩
  | some d =>
    by_cases hn : p.1.name = n
    · refine ⟨connRec p.1 d now, ?_, rfl, rfl, rfl⟩
      simp only [switchStatusStep, hp]
      rw [← hn]
      exact lookupA_upsert_self _ _ _
    · refine ⟨st, ?_, h1, h2, h3⟩
      simp only [switchStatusStep, hp]
      rw [lookupA_upsert_ne _ _ hn]
      exact hst

theorem goodSwitch_mono (now : Nat) (n : String) :
    ∀ (sds : List (SwitchConfig × Option SwitchData)) (m : List (String × SwitchStatus)),
      GoodSwitch n now m → GoodSwitch n now (sds.foldl (switchStatusStep now) m) := by
  intro sds
  induction sds with
  | nil => intro m h; exact h
  | cons p rest ih =>
    intro m h
    rw [List.foldl_cons]
    exact ih _ (goodSwitch_step now n m p h)

theorem updateSwitchStatuses_good (now : Nat) (n : String) :
    ∀ (sds : List (SwitchConfig × Option SwitchData)) (prev : List (String × SwitchStatus)),
      (∃ p ∈ sds, p.2.isSome = true ∧ p.1.name = n) →
      GoodSwitch n now (updateSwitchStatuses prev sds now) := by
  intro sds
  induction sds with
  | nil =>
    rintro prev ⟨p, hp, _⟩
    exact absurd hp (List.not_mem_nil p)
  | cons q rest ih =>
    rintro prev ⟨p, hp, hsome, hname⟩
    simp only [updateSwitchStatuses, List.foldl_cons] at ih ⊢
    rcases List.mem_cons.mp hp with rfl | hmem
    · apply goodSwitch_mono
      obtain ⟨d, hd⟩ := Option.isSome_iff_exists.mp hsome
      refine ⟨connRec p.1 d now, ?_, rfl, rfl, rfl⟩
      simp only [switchStatusStep, hd]
      rw [← hname]
      exact lookupA_upsert_self _ _ _
    · exact ih _ ⟨p, hmem, hsome, hname⟩

/-- C7: the claim as stated is false on the code.  In the concrete cycle
`c7res`, switch sw1 fails to connect, yet its recorded status is the
stale previous-cycle entry `connected = true` with no error string — the
live collection loop simply skips a failed switch and records nothing
(only the unused legacy helper records `connected=false`).  The other
switch sw2 is still polled and recorded as connected. -/
theorem C7_counterexample :
    (lookupA c7res "sw1").map (fun st => (st.connected, st.error)) = some (true, none) ∧
      (lookupA c7res "sw2").map (fun st => (st.connected, st.name))
        = some (true, "edge2") := by decide

/-- C7 (amended): when the connection to a switch fails, no queries are issued
against it and its per-cycle status entry is simply not updated (it keeps
whatever the previous cycles recorded, with no `connected=false`/error
marker), while every switch whose connection succeeded — before or after
the failed one — is recorded as connected at the time of this cycle. -/
theorem C7_connection_failure (prev : List (String × SwitchStatus))
    (sds : List (SwitchConfig × Option SwitchData)) (now : Nat) (n : String) :
    ((∀ p ∈ sds, p.2.isSome = true → p.1.name ≠ n) →
      lookupA (updateSwitchStatuses prev sds now) n = lookupA prev n) ∧
      ((∃ p ∈ sds, p.2.isSome = true ∧ p.1.name = n) →
        ∃ st, lookupA (updateSwitchStatuses prev sds now) n = some st ∧
          st.connected = true ∧ st.error = none ∧ st.last_check = some now) :=
  ⟨fun h => updateSwitchStatuses_frame now n sds prev h,
   fun h => updateSwitchStatuses_good now n sds prev h⟩

/-- Witness for the amended C7 theorem at the concrete scenario. -/
theorem C7_witness :
    lookupA c7res "sw1" = lookupA c7prev "sw1" ∧
      (∃ st, lookupA c7res "sw2" = some st ∧ st.connected = true ∧
        st.error = none ∧ st.last_check = some 5) :=
  ⟨(C7_connection_failure c7prev
      [(⟨"sw1", "h1"⟩, none), (⟨"sw2", "h2"⟩, some { identity := some "edge2" })]
      5 "sw1").1 (by decide),
   (C7_connection_failure c7prev
      [(⟨"sw1", "h1"⟩, none), (⟨"sw2", "h2"⟩, some { identity := some "edge2" })]
      5 "sw2").2
     ⟨(⟨"sw2", "h2"⟩, some { identity := some "edge2" }), by decide, by decide, rfl⟩⟩

theorem keyLe_total : ∀ (a b : List Int), keyLe a b = true ∨ keyLe b a = true := by
  intro a
  induction a with
  | nil => intro b; left; rfl
  | cons x xs ih =>
    intro b
    cases b with
    | nil => right; rfl
    | cons y ys =>
      by_cases h1 : x < y
      · left; simp [keyLe, h1]
      · by_cases h2 : y < x
        · right; simp [keyLe, h2]
        · have hxy : x = y := le_antisymm (not_lt.mp h2) (not_lt.mp h1)
          subst hxy
          rcases ih ys with h | h
          · left; simp [keyLe, h1, h]
          · right; simp [keyLe, h1, h]

theorem keyLe_trans : ∀ (a b c : List Int),
    keyLe a b = true → keyLe b c = true → keyLe a c = true := by
  intro a
  induction a with
  | nil => intro b c _ _; rfl
  | cons x xs ih =>
    intro b c hab hbc
    cases b with
    | nil => simp [keyLe] at hab
    | cons y ys =>
      cases c with
      | nil => simp [keyLe] at hbc
      | cons z zs =>
        simp only [keyLe] at hab hbc ⊢
        by_cases h1 : x < y
        · by_cases h2 : y < z
          · have hxz : x < z := lt_trans h1 h2
            simp [hxz]
          · by_cases h3 : z < y
            · rw [if_neg h2, if_pos h3] at hbc
              exact absurd hbc (by simp)
            · have hyz : y = z := le_antisymm (not_lt.mp h3) (not_lt.mp h2)
              subst hyz
              simp [h1]
        · by_cases h1' : y < x
          · rw [if_neg h1, if_pos h1'] at hab
            exact absurd hab (by simp)
          · have hxy : x = y := le_antisymm (not_lt.mp h1') (not_lt.mp h1)
            subst hxy
            rw [if_neg h1, if_neg h1'] at hab
            by_cases h2 : x < z
            · simp [h2]
            · by_cases h3 : z < x
              · rw [if_neg h2, if_pos h3] at hbc
                exact absurd hbc (by simp)
              · have hxz : x = z := le_antisymm (not_lt.mp h3) (not_lt.mp h2)
                subst hxz
                rw [if_neg h2, if_neg h3] at hbc
                rw [if_neg h2, if_neg h3]
                exact ih ys zs hab hbc

instance : IsTotal DeviceStatus devKeyLe := ⟨fun _ _ => keyLe_total _ _⟩

instance : IsTrans DeviceStatus devKeyLe := ⟨fun _ _ _ => keyLe_trans _ _ _⟩

/-- C8: the claim as stated is false on the code.  The snapshot `c8sts`
contains one matched device whose display address is the DNS name
`nas.local`; `get_matched_devices` then raises `ValueError` while
computing the dotted-quad sort key (modelled as returning `none`). -/
theorem C8_counterexample :
    (matchedOf c8sts).map (fun d => d.ip) = ["nas.local"] ∧
      get_matched_devices c8sts = none := by decide

/-- C8 (amended): whenever the display address of every matched device is a
dotted quad of integer literals, `get_matched_devices` returns — without
error — exactly the devices with `online ∧ speed_match` (a permutation of
that filter), sorted by the numeric tuple order of their addresses; with
any other display address (for example a DNS name) the sort key raises. -/
theorem C8_matched_sorted (sts : List (String × DeviceStatus))
    (h : ∀ d ∈ matchedOf sts, (ipSortKey d.ip).isSome = true) :
    ∃ l, get_matched_devices sts = some l ∧ l.Perm (matchedOf sts) ∧
      l.Sorted devKeyLe := by
  unfold get_matched_devices
  dsimp only
  have hall : (matchedOf sts).all (fun d => (ipSortKey d.ip).isSome) = true :=
    List.all_eq_true.mpr h
  rw [if_pos hall]
  exact ⟨_, rfl, List.perm_insertionSort _ _, List.sorted_insertionSort _ _⟩

/-- Witness for the amended C8 theorem at a concrete snapshot. -/
theorem C8_witness :
    ∃ l, get_matched_devices c8wsts = some l ∧ l.Perm (matchedOf c8wsts) ∧
      l.Sorted devKeyLe :=
  C8_matched_sorted c8wsts (by decide)

theorem setSpeed_port_name (sp : Option String) (st : DeviceStatus) :
    (setSpeed sp st).port_name = st.port_name := rfl

theorem setSpeed_switch_name (sp : Option String) (st : DeviceStatus) :
    (setSpeed sp st).switch_name = st.switch_name := rfl

theorem setSpeed_actual_speed (sp : Option String) (st : DeviceStatus) :
    (setSpeed sp st).actual_speed = normalize_speed sp := rfl

theorem autoUpd_mac (idn : String) (up : List (String × String))
    (ps : List (String × Option String)) (port : String) (st : DeviceStatus) :
    (autoUpd idn up ps port st).mac = st.mac := by
  unfold autoUpd
  split
  · split <;> rfl
  · rfl

theorem baseUpd_baseUpd (mac : String) (now : Nat) (st : DeviceStatus) :
    baseUpd mac now (baseUpd mac now st) = baseUpd mac now st := rfl

theorem baseUpd_fix (mac : String) (now : Nat) (st : DeviceStatus)
    (h1 : st.mac = some mac) (h2 : st.online = true) (h3 : st.last_seen = some now) :
    baseUpd mac now st = st := by
  cases st
  simp only [baseUpd]
  simp_all

theorem updStatus_unpinned (cfg : Option DeviceConfig) (idn : String)
    (up : List (String × String)) (ps : List (String × Option String))
    (mac port : String) (now : Nat) (st0 : DeviceStatus)
    (h : pinnedOf cfg = false) :
    updStatus cfg idn up ps mac port now st0
      = autoUpd idn up ps port (baseUpd mac now st0) := by
  cases cfg with
  | none => rfl
  | some c =>
    simp only [updStatus]
    simp only [pinnedOf] at h
    rw [h]
    simp

theorem autoUpd_uplink (idn : String) (up : List (String × String))
    (ps : List (String × Option String)) (port : String) (st : DeviceStatus)
    (h : (lookupA up port).isSome = true) : autoUpd idn up ps port st = st := by
  cases hx : lookupA up port with
  | none => rw [hx] at h; exact absurd h (by simp)
  | some v => simp [autoUpd, hx]

theorem autoUpd_adopt (idn : String) (up : List (String × String))
    (ps : List (String × Option String)) (port : String) (st : DeviceStatus)
    (h1 : lookupA up port = none) (h2 : st.port_name = none) :
    autoUpd idn up ps port st =
      (match lookupA ps port with
       | some sp =>
         setSpeed sp { st with port_name := some port, switch_name := some idn }
       | none => { st with port_name := some port, switch_name := some idn }) := by
  unfold autoUpd
  rw [if_pos (by simp [h1, h2])]

/-- C6: for an unpinned device whose MAC sits behind an uplink port `pA`
on switch A and behind an access port `pB` on switch B, attribution
adopts the access port of B — switch name, port name and (when the interface table of B lists `pB`) the speed read
from that port — and the resulting
status is identical whichever of the two switches is processed first. -/
theorem C6_access_port_wins (cfgMap : List (String × DeviceConfig))
    (cnA cnB : String) (A B : SwitchData) (idx : List (String × String)) (now : Nat)
    (sts : List (String × DeviceStatus)) (ip mac pA pB : String) (st0 : DeviceStatus)
    (hA : hitsOf idx ip (macToPortOf A) = [(mac, pA)])
    (hB : hitsOf idx ip (macToPortOf B) = [(mac, pB)])
    (hpin : pinnedOf (lookupA cfgMap ip) = false)
    (hup : (lookupA A.uplink_ports pA).isSome = true)
    (hacc : lookupA B.uplink_ports pB = none)
    (hst : lookupA sts ip = some st0)
    (hport : st0.port_name = none) :
    ∃ st',
      lookupA (process_switch_data cfgMap cnB B idx now
        (process_switch_data cfgMap cnA A idx now sts)) ip = some st' ∧
      lookupA (process_switch_data cfgMap cnA A idx now
        (process_switch_data cfgMap cnB B idx now sts)) ip = some st' ∧
      st'.switch_name = some (identityOf cnB B) ∧ st'.port_name = some pB ∧
      st'.online = true ∧
      (∀ sp, lookupA (portSpeedOf B) pB = some sp →
        st'.actual_speed = normalize_speed sp) := by
  have hupdA : ∀ st : DeviceStatus,
      updStatus (lookupA cfgMap ip) (identityOf cnA A) A.uplink_ports (portSpeedOf A)
        mac pA now st = baseUpd mac now st := by
    intro st
    rw [updStatus_unpinned _ _ _ _ _ _ _ _ hpin, autoUpd_uplink _ _ _ _ _ hup]
  have hupdB : ∀ st : DeviceStatus,
      updStatus (lookupA cfgMap ip) (identityOf cnB B) B.uplink_ports (portSpeedOf B)
        mac pB now st
        = autoUpd (identityOf cnB B) B.uplink_ports (portSpeedOf B) pB
            (baseUpd mac now st) := fun st =>
    updStatus_unpinned _ _ _ _ _ _ _ _ hpin
  have lA : lookupA (process_switch_data cfgMap cnA A idx now sts) ip
      = some (baseUpd mac now st0) := by
    rw [lookupA_process_switch_data, hA, hst]
    simp only [List.foldl_cons, List.foldl_nil, Option.map_some']
    rw [hupdA]
  have lB : lookupA (process_switch_data cfgMap cnB B idx now sts) ip
      = some (autoUpd (identityOf cnB B) B.uplink_ports (portSpeedOf B) pB
          (baseUpd mac now st0)) := by
    rw [lookupA_process_switch_data, hB, hst]
    simp only [List.foldl_cons, List.foldl_nil, Option.map_some']
    rw [hupdB]
  have lAB : lookupA (process_switch_data cfgMap cnB B idx now
      (process_switch_data cfgMap cnA A idx now sts)) ip
      = some (autoUpd (identityOf cnB B) B.uplink_ports (portSpeedOf B) pB
          (baseUpd mac now st0)) := by
    rw [lookupA_process_switch_data, hB, lA]
    simp only [List.foldl_cons, List.foldl_nil, Option.map_some']
    rw [hupdB, baseUpd_baseUpd]
  have hRmac : (autoUpd (identityOf cnB B) B.uplink_ports (portSpeedOf B) pB
      (baseUpd mac now st0)).mac = some mac := by rw [autoUpd_mac]; rfl
  have hRonline : (autoUpd (identityOf cnB B) B.uplink_ports (portSpeedOf B) pB
      (baseUpd mac now st0)).online = true := by rw [autoUpd_online]; rfl
  have hRlast : (autoUpd (identityOf cnB B) B.uplink_ports (portSpeedOf B) pB
      (baseUpd mac now st0)).last_seen = some now := by rw [autoUpd_last_seen]; rfl
  have lBA : lookupA (process_switch_data cfgMap cnA A idx now
      (process_switch_data cfgMap cnB B idx now sts)) ip
      = some (autoUpd (identityOf cnB B) B.uplink_ports (portSpeedOf B) pB
          (baseUpd mac now st0)) := by
    rw [lookupA_process_switch_data, hA, lB]
    simp only [List.foldl_cons, List.foldl_nil, Option.map_some']
    rw [hupdA, baseUpd_fix _ _ _ hRmac hRonline hRlast]
  have hadopt := autoUpd_adopt (identityOf cnB B) B.uplink_ports (portSpeedOf B) pB
    (baseUpd mac now st0) hacc hport
  refine ⟨autoUpd (identityOf cnB B) B.uplink_ports (portSpeedOf B) pB
    (baseUpd mac now st0), lAB, lBA, ?_, ?_, hRonline, ?_⟩
  · rw [hadopt]
    cases hsp : lookupA (portSpeedOf B) pB <;> simp [setSpeed]
  · rw [hadopt]
    cases hsp : lookupA (portSpeedOf B) pB <;> simp [setSpeed]
  · intro sp hsp
    rw [hadopt, hsp]
    rfl

/-- Witness for C6 at a concrete two-switch scenario. -/
theorem C6_witness :
    ∃ st',
      lookupA (process_switch_data [] "swB" c6B c6idx 7
        (process_switch_data [] "swA" c6A c6idx 7
          [("10.0.0.9", c6st0)])) "10.0.0.9" = some st' ∧
      lookupA (process_switch_data [] "swA" c6A c6idx 7
        (process_switch_data [] "swB" c6B c6idx 7
          [("10.0.0.9", c6st0)])) "10.0.0.9" = some st' ∧
      st'.switch_name = some (identityOf "swB" c6B) ∧ st'.port_name = some "ether5" ∧
      st'.online = true ∧
      (∀ sp, lookupA (portSpeedOf c6B) "ether5" = some sp →
        st'.actual_speed = normalize_speed sp) :=
  C6_access_port_wins [] "swA" "swB" c6A c6B c6idx 7 [("10.0.0.9", c6st0)]
    "10.0.0.9" "CC:CC:CC:CC:CC:CC" "ether1" "ether5" c6st0
    (by decide) (by decide) (by decide) (by decide) (by decide) (by decide) (by decide)

theorem updStatus_pinned_missing (c : DeviceConfig) (idn : String)
    (up : List (String × String)) (ps : List (String × Option String))
    (mac port : String) (now : Nat) (st0 : DeviceStatus) (ep : String)
    (hsw : c.switch = some idn) (hswne : idn ≠ "")
    (hpt : c.port = some ep) (hepne : ep ≠ "")
    (hspeed : lookupA ps ep = none) :
    updStatus (some c) idn up ps mac port now st0
      = { baseUpd mac now st0 with port_name := some ep, switch_name := some idn } := by
  simp only [updStatus]
  rw [if_pos (by rw [hsw, hpt]; simp [optTruthy, hswne, hepne])]
  simp only [pinApply]
  rw [if_pos hsw, hpt]
  simp only [hspeed]

/-- C10: a pinned device whose MAC is found in the bridge host table of
its expected switch, but whose pinned port name is absent from the
ethernet interface list of that switch, still comes out `online = true` with
the pinned `switch_name`/`port_name`, while `actual_speed` remains ⊥ and
`speed_match` remains false (their defaults). -/
theorem C10_pinned_missing_port (cfgMap : List (String × DeviceConfig))
    (cfgName : String) (sd : SwitchData) (idx : List (String × String)) (now : Nat)
    (sts : List (String × DeviceStatus)) (ip mac p0 ep : String) (c : DeviceConfig)
    (st0 : DeviceStatus)
    (hhit : hitsOf idx ip (macToPortOf sd) = [(mac, p0)])
    (hcfg : lookupA cfgMap ip = some c)
    (hsw : c.switch = some (identityOf cfgName sd))
    (hswne : identityOf cfgName sd ≠ "")
    (hpt : c.port = some ep) (hepne : ep ≠ "")
    (hspeed : lookupA (portSpeedOf sd) ep = none)
    (hst : lookupA sts ip = some st0)
    (ha : st0.actual_speed = none) (hm : st0.speed_match = false) :
    ∃ st', lookupA (process_switch_data cfgMap cfgName sd idx now sts) ip = some st' ∧
      st'.online = true ∧ st'.switch_name = some (identityOf cfgName sd) ∧
      st'.port_name = some ep ∧ st'.actual_speed = none ∧ st'.speed_match = false := by
  have hlook : lookupA (process_switch_data cfgMap cfgName sd idx now sts) ip
      = some (updStatus (some c) (identityOf cfgName sd) sd.uplink_ports
          (portSpeedOf sd) mac p0 now st0) := by
    rw [lookupA_process_switch_data, hhit, hst, hcfg]
    simp only [List.foldl_cons, List.foldl_nil, Option.map_some']
  rw [hlook, updStatus_pinned_missing _ _ _ _ _ _ _ _ _ hsw hswne hpt hepne hspeed]
  exact ⟨_, rfl, rfl, rfl, rfl, ha, hm⟩

/-- Witness for C10 at a concrete pinned-device scenario. -/
theorem C10_witness :
    ∃ st', lookupA (process_switch_data [("10.0.0.8", c10cfg)] "edge2" c10sd
        [("DD:DD:DD:DD:DD:DD", "10.0.0.8")] 9 [("10.0.0.8", c10st0)]) "10.0.0.8"
        = some st' ∧
      st'.online = true ∧ st'.switch_name = some (identityOf "edge2" c10sd) ∧
      st'.port_name = some "ether10" ∧ st'.actual_speed = none ∧
      st'.speed_match = false :=
  C10_pinned_missing_port [("10.0.0.8", c10cfg)] "edge2" c10sd
    [("DD:DD:DD:DD:DD:DD", "10.0.0.8")] 9 [("10.0.0.8", c10st0)] "10.0.0.8"
    "DD:DD:DD:DD:DD:DD" "ether2" "ether10" c10cfg c10st0
    (by decide) (by decide) (by decide) (by decide) (by decide) (by decide)
    (by decide) (by decide) (by decide) (by decide)

end NetStats
